import Mathlib

/-!
Shallow embedding of the championship standings and stewarding engine of the
bot-rti repository.  The repository ships the persisted relational schema and
its data (src/unnamed/part_001, the authoritative later dump, and
src/sql/create_db.sql, an earlier dump) together with a thin web front end;
the engine operations themselves are not present as code, so they are
modelled from the specification, while the schema constraints and the table
data are embedded from the SQL dumps verbatim.  SQL double precision columns
are embedded as rationals (no floating-point arithmetic is performed on
them), dates as strings, and nullable columns as Option.
-/

namespace BotRti

/-- Error taxonomy of the engine (spec section 7). -/
inductive EngineError
  | referenceError
  | overlapError
  | configError
  | rangeError
  | stateError
deriving Repr, DecidableEq

/-- Row of the point_systems table (src/unnamed/part_001 lines 284-287): an id
and an ordered sequence of point values, stored in SQL as a space-separated
string and embedded here as the corresponding list of rationals. -/
structure PointSystem where
  point_system_id : Nat
  values : List ℚ
deriving Repr, DecidableEq

/-- Data of the point_systems table (src/unnamed/part_001 lines 884-888). -/
def point_systems : List PointSystem :=
  [⟨1, [12.5, 10, 8, 6.5, 5.5, 5, 4.5, 4, 3.5, 3, 2.5, 2, 1.5, 1]⟩,
   ⟨2, [40, 35, 32, 27, 25, 23, 22, 20, 15, 12, 9, 6, 4, 2]⟩,
   ⟨3, [2, 0, 0, 0, 0, 0, 0, 0, 0, 0, 0, 0, 0, 0]⟩]

/-- Modelled from the spec: the value of a point sequence at a 1-based
position, or 0 when the position is null, less than 1, or beyond the length
of the sequence (spec section 4.1; no implementation exists in src/). -/
def pointsOf (values : List ℚ) (position : Option Nat) : ℚ :=
  match position with
  | none => 0
  | some p => if p < 1 then 0 else (values.get? (p - 1)).getD 0

/-- Modelled from the spec: `points(pointSystemId, position)`; a point system
id that does not resolve fails with ConfigError (spec section 4.1; no
implementation exists in src/). -/
def points (pointSystemId : Nat) (position : Option Nat) : Except EngineError ℚ :=
  match point_systems.find? (fun ps => ps.point_system_id == pointSystemId) with
  | none => .error .configError
  | some ps => .ok (pointsOf ps.values position)

instance {ε α : Type} [DecidableEq ε] [DecidableEq α] : DecidableEq (Except ε α) := fun a b =>
  match a, b with
  | .ok a, .ok b => decidable_of_iff (a = b) (by simp)
  | .error a, .error b => decidable_of_iff (a = b) (by simp)
  | .ok _, .error _ => isFalse (by simp)
  | .error _, .ok _ => isFalse (by simp)

/-- Row of the sessions table (src/unnamed/part_001 lines 502-506): a named
session and the point system it uses. -/
structure Session where
  session_id : Nat
  name : String
  point_system_id : Nat
deriving Repr, DecidableEq

/-- Data of the sessions table (src/unnamed/part_001 lines 1048-1053). -/
def sessions : List Session :=
  [⟨1, "Gara 1", 1⟩, ⟨2, "Gara 2", 1⟩, ⟨3, "Gara", 2⟩, ⟨6, "Qualifica", 3⟩]

/-- Row of the rounds table (src/unnamed/part_001 lines 463-471).  Dates are
embedded as strings. -/
structure Round where
  round_id : Nat
  number : Nat
  date : String
  circuit : String
  completed : Bool
  category_id : Nat
  championship_id : Nat
deriving Repr, DecidableEq

/-- Row of the race_results table (src/unnamed/part_001 lines 361-376).
Nullable smallint columns are Option Nat, double precision columns are
rationals. -/
structure RaceResultRow where
  result_id : Nat
  finishing_position : Option Nat
  relative_position : Option Nat
  fastest_lap_points : Nat
  penalty_points : Int
  penalty_seconds : ℚ
  gap_to_first : Option ℚ
  total_racetime : Option ℚ
  driver_id : Nat
  round_id : Nat
  category_id : Nat
  session_id : Nat
  warnings : Nat
  licence_points : Int
deriving Repr, DecidableEq

/-- Row of the qualifying_results table (src/unnamed/part_001 lines
318-330). -/
structure QualifyingResultRow where
  qualifying_result_id : Nat
  position : Option Nat
  relative_position : Option Nat
  laptime : Option ℚ
  penalty_points : Int
  driver_id : Nat
  round_id : Nat
  category_id : Nat
  session_id : Nat
  warnings : Nat
  licence_points : Int
deriving Repr, DecidableEq

/-- Row of the drivers_categories table (src/unnamed/part_001 lines 210-219):
per-category enrollment with licence points (default 10) and warnings
(default 0). -/
structure DriversCategoriesRow where
  joined_on : Option String
  licence_points : Int
  race_number : Nat
  driver_id : Nat
  category_id : Nat
  car_class_id : Option Nat
  left_on : Option String
  warnings : Nat
deriving Repr, DecidableEq

/-- Row of the reports table (src/unnamed/part_001 lines 407-432). -/
structure ReportRow where
  report_id : Nat
  number : Nat
  incident_time : String
  report_reason : Option String
  video_link : Option String
  fact : Option String
  penalty : Option String
  time_penalty : Nat
  championship_penalty_points : Option Nat
  licence_penalty_points : Option Nat
  penalty_reason : Option String
  is_reviewed : Bool
  is_queued : Bool
  report_time : Option String
  category_id : Nat
  round_id : Nat
  session_id : Nat
  channel_message_id : Option Nat
  reported_team_id : Nat
  reporting_team_id : Option Nat
  warnings : Nat
  licence_points : Int
  reported_driver_id : Option Nat
  reporting_driver_id : Option Nat
deriving Repr, DecidableEq

/-- Shared relational state of the engine: the Result Ledger (race and
qualifying results), the per-category Roster Ledger counters
(drivers_categories), and the Stewarding Workflow store (reports). -/
structure EngineState where
  race_results : List RaceResultRow
  qualifying_results : List QualifyingResultRow
  drivers_categories : List DriversCategoriesRow
  reports : List ReportRow
deriving Repr, DecidableEq

/-- Data of the qualifying_results table (src/unnamed/part_001 lines 895-924). -/
def qualifying_results : List QualifyingResultRow :=
  [⟨43, some 1, some 1, some (118.461 : ℚ), 0, 33, 1, 1, 6, 0, 0⟩,
   ⟨44, some 2, some 2, some (118.823 : ℚ), 0, 3, 1, 1, 6, 0, 0⟩,
   ⟨45, some 3, some 3, some (119.194 : ℚ), 0, 27, 1, 1, 6, 0, 0⟩,
   ⟨46, some 4, some 4, some (119.3 : ℚ), 0, 39, 1, 1, 6, 0, 0⟩,
   ⟨47, some 5, some 5, some (121.268 : ℚ), 0, 15, 1, 1, 6, 0, 0⟩,
   ⟨48, none, some 6, none, 0, 9, 1, 1, 6, 0, 0⟩,
   ⟨49, none, some 7, none, 0, 21, 1, 1, 6, 0, 0⟩,
   ⟨50, some 6, some 1, some (126.974 : ℚ), 0, 40, 1, 1, 6, 0, 0⟩,
   ⟨51, some 7, some 2, some (127.198 : ℚ), 0, 16, 1, 1, 6, 0, 0⟩,
   ⟨52, some 8, some 3, some (127.94 : ℚ), 0, 34, 1, 1, 6, 0, 0⟩,
   ⟨53, some 9, some 4, some (128.05 : ℚ), 0, 4, 1, 1, 6, 0, 0⟩,
   ⟨54, some 10, some 5, some (128.386 : ℚ), 0, 28, 1, 1, 6, 0, 0⟩,
   ⟨55, some 11, some 6, some (128.707 : ℚ), 0, 22, 1, 1, 6, 0, 0⟩,
   ⟨56, none, some 7, none, 0, 10, 1, 1, 6, 0, 0⟩,
   ⟨57, some 1, some 1, some (129.164 : ℚ), 0, 26, 2, 2, 6, 0, 0⟩,
   ⟨58, some 2, some 2, some (129.20499999999998 : ℚ), 0, 32, 2, 2, 6, 0, 0⟩,
   ⟨59, some 3, some 3, some (129.58999999999997 : ℚ), 0, 8, 2, 2, 6, 0, 0⟩,
   ⟨60, some 4, some 4, some (129.607 : ℚ), 0, 13, 2, 2, 6, 0, 0⟩,
   ⟨61, some 5, some 5, some (129.74499999999998 : ℚ), 0, 14, 2, 2, 6, 0, 0⟩,
   ⟨62, some 6, some 6, some (129.81599999999997 : ℚ), 0, 19, 2, 2, 6, 0, 0⟩,
   ⟨63, some 7, some 7, some (130.236 : ℚ), 0, 43, 2, 2, 6, 0, 0⟩,
   ⟨64, some 8, some 8, some (130.422 : ℚ), 0, 31, 2, 2, 6, 0, 0⟩,
   ⟨65, some 9, some 9, some (130.789 : ℚ), 0, 44, 2, 2, 6, 0, 0⟩,
   ⟨66, some 10, some 10, some (130.868 : ℚ), 0, 38, 2, 2, 6, 0, 0⟩,
   ⟨67, some 11, some 11, some (132.96699999999998 : ℚ), 0, 25, 2, 2, 6, 0, 0⟩,
   ⟨68, none, some 12, none, 0, 7, 2, 2, 6, 0, 0⟩,
   ⟨69, none, some 13, none, 0, 20, 2, 2, 6, 0, 0⟩,
   ⟨70, none, some 14, none, 0, 37, 2, 2, 6, 0, 0⟩]

/-- Data of the race_results table (src/unnamed/part_001 lines 931-999). -/
def race_results : List RaceResultRow :=
  [⟨227, some 1, some 1, 0, 0, 0, some (0 : ℚ), some (4059.684 : ℚ), 3, 1, 1, 3, 0, 0⟩,
   ⟨229, some 3, some 3, 0, 0, 0, some (52 : ℚ), some (4111.684 : ℚ), 9, 1, 1, 3, 0, 0⟩,
   ⟨230, some 4, some 4, 0, 0, 0, some (63.87700000000041 : ℚ), some (4123.561000000001 : ℚ), 27, 1, 1, 3, 0, 0⟩,
   ⟨231, some 5, some 5, 0, 0, 0, some (75.52999999999975 : ℚ), some (4135.214 : ℚ), 39, 1, 1, 3, 0, 0⟩,
   ⟨232, some 6, some 6, 0, 0, 0, some (105 : ℚ), some (4164.684 : ℚ), 15, 1, 1, 3, 0, 0⟩,
   ⟨233, none, none, 0, 0, 0, none, none, 21, 1, 1, 3, 0, 0⟩,
   ⟨234, some 7, some 1, 0, 0, 0, some (0 : ℚ), some (4299.684 : ℚ), 28, 1, 1, 3, 0, 0⟩,
   ⟨235, some 8, some 2, 0, 0, 0, some (5.694000000000415 : ℚ), some (4305.378000000001 : ℚ), 34, 1, 1, 3, 0, 0⟩,
   ⟨236, some 9, some 3, 0, 0, 0, some (34.435999999999694 : ℚ), some (4334.12 : ℚ), 16, 1, 1, 3, 0, 0⟩,
   ⟨237, some 10, some 4, 0, 0, 0, some (42.5 : ℚ), some (4342.184 : ℚ), 22, 1, 1, 3, 0, 0⟩,
   ⟨238, some 11, some 5, 1, 0, 0, some (60.39800000000014 : ℚ), some (4360.082 : ℚ), 4, 1, 1, 3, 0, 0⟩,
   ⟨239, some 12, some 6, 0, 0, 0, some (76.48300000000017 : ℚ), some (4376.167 : ℚ), 40, 1, 1, 3, 0, 0⟩,
   ⟨240, none, none, 0, 0, 0, none, none, 10, 1, 1, 3, 0, 0⟩,
   ⟨241, some 1, some 1, 0, 0, 0, some (0 : ℚ), some (1457.202 : ℚ), 26, 2, 2, 1, 0, 0⟩,
   ⟨242, some 2, some 2, 0, 0, 0, some (3.6010000000001128 : ℚ), some (1460.803 : ℚ), 13, 2, 2, 1, 0, 0⟩,
   ⟨243, some 3, some 3, 0, 0, 0, some (16.922000000000025 : ℚ), some (1474.124 : ℚ), 19, 2, 2, 1, 0, 0⟩,
   ⟨244, some 4, some 4, 0, 0, 0, some (22.136999999999944 : ℚ), some (1479.339 : ℚ), 31, 2, 2, 1, 0, 0⟩,
   ⟨245, some 5, some 5, 1, 0, 0, some (22.621000000000095 : ℚ), some (1479.823 : ℚ), 32, 2, 2, 1, 0, 0⟩,
   ⟨246, some 6, some 6, 0, 0, 0, some (30.59999999999991 : ℚ), some (1487.802 : ℚ), 43, 2, 2, 1, 0, 0⟩,
   ⟨247, some 7, some 7, 0, 0, 0, some (30.74700000000007 : ℚ), some (1487.949 : ℚ), 8, 2, 2, 1, 0, 0⟩,
   ⟨248, some 8, some 8, 0, 0, 0, some (31.457000000000107 : ℚ), some (1488.659 : ℚ), 14, 2, 2, 1, 0, 0⟩,
   ⟨249, some 9, some 9, 0, 0, 0, some (39.45399999999995 : ℚ), some (1496.656 : ℚ), 44, 2, 2, 1, 0, 0⟩,
   ⟨250, some 10, some 10, 0, 0, 0, some (53.218000000000075 : ℚ), some (1510.42 : ℚ), 38, 2, 2, 1, 0, 0⟩,
   ⟨251, some 11, some 11, 0, 0, 0, some (109.48900000000003 : ℚ), some (1566.691 : ℚ), 25, 2, 2, 1, 0, 0⟩,
   ⟨252, none, none, 0, 0, 0, none, none, 7, 2, 2, 1, 0, 0⟩,
   ⟨253, none, none, 0, 0, 0, none, none, 20, 2, 2, 1, 0, 0⟩,
   ⟨254, none, none, 0, 0, 0, none, none, 37, 2, 2, 1, 0, 0⟩,
   ⟨255, some 1, some 1, 0, 0, 0, some (0 : ℚ), some (1459.795 : ℚ), 13, 2, 2, 2, 0, 0⟩,
   ⟨256, some 2, some 2, 0, 0, 0, some (7.176999999999907 : ℚ), some (1466.972 : ℚ), 8, 2, 2, 2, 0, 0⟩,
   ⟨257, some 3, some 3, 0, 0, 0, some (8.037000000000035 : ℚ), some (1467.832 : ℚ), 26, 2, 2, 2, 0, 0⟩,
   ⟨258, some 4, some 4, 1, 0, 0, some (13.371000000000095 : ℚ), some (1473.1660000000002 : ℚ), 32, 2, 2, 2, 0, 0⟩,
   ⟨259, some 5, some 5, 0, 0, 0, some (13.894000000000005 : ℚ), some (1473.689 : ℚ), 14, 2, 2, 2, 0, 0⟩,
   ⟨260, some 6, some 6, 0, 0, 0, some (18.50999999999999 : ℚ), some (1478.305 : ℚ), 19, 2, 2, 2, 0, 0⟩,
   ⟨261, some 7, some 7, 0, 0, 0, some (21.628999999999905 : ℚ), some (1481.424 : ℚ), 43, 2, 2, 2, 0, 0⟩,
   ⟨262, some 8, some 8, 0, 0, 0, some (22.468000000000075 : ℚ), some (1482.2630000000001 : ℚ), 44, 2, 2, 2, 0, 0⟩,
   ⟨263, some 9, some 9, 0, 0, 0, some (26.11500000000001 : ℚ), some (1485.91 : ℚ), 31, 2, 2, 2, 0, 0⟩,
   ⟨264, some 10, some 10, 0, 0, 0, some (46.541999999999916 : ℚ), some (1506.337 : ℚ), 38, 2, 2, 2, 0, 0⟩,
   ⟨265, some 11, some 11, 0, 0, 0, some (96.32899999999995 : ℚ), some (1556.124 : ℚ), 25, 2, 2, 2, 0, 0⟩,
   ⟨266, none, none, 0, 0, 0, none, none, 7, 2, 2, 2, 0, 0⟩,
   ⟨267, none, none, 0, 0, 0, none, none, 20, 2, 2, 2, 0, 0⟩,
   ⟨268, none, none, 0, 0, 0, none, none, 37, 2, 2, 2, 0, 0⟩,
   ⟨269, some 1, some 1, 0, 0, 0, some (0 : ℚ), some (1821.666 : ℚ), 12, 3, 3, 1, 0, 0⟩,
   ⟨270, some 2, some 2, 0, 0, 0, some (1 : ℚ), some (1822.666 : ℚ), 35, 3, 3, 1, 0, 0⟩,
   ⟨282, some 1, some 1, 0, 0, 0, some (0 : ℚ), some (1795 : ℚ), 35, 3, 3, 2, 0, 0⟩,
   ⟨283, some 2, some 2, 0, 0, 0, some (5 : ℚ), some (1800 : ℚ), 5, 3, 3, 2, 0, 0⟩,
   ⟨271, some 3, some 3, 0, 0, 0, some (2 : ℚ), some (1823.666 : ℚ), 5, 3, 3, 1, 0, 0⟩,
   ⟨272, some 4, some 4, 1, 0, 0, some (3 : ℚ), some (1824.666 : ℚ), 11, 3, 3, 1, 0, 0⟩,
   ⟨273, some 5, some 5, 0, 0, 0, some (7 : ℚ), some (1828.666 : ℚ), 23, 3, 3, 1, 0, 0⟩,
   ⟨274, some 6, some 6, 0, 0, 0, some (14 : ℚ), some (1835.666 : ℚ), 29, 3, 3, 1, 0, 0⟩,
   ⟨275, some 7, some 7, 0, 0, 0, some (27 : ℚ), some (1848.666 : ℚ), 17, 3, 3, 1, 0, 0⟩,
   ⟨276, some 8, some 8, 0, 0, 0, some (31 : ℚ), some (1862.666 : ℚ), 6, 3, 3, 1, 0, 0⟩,
   ⟨277, some 9, some 9, 0, 0, 0, some (46 : ℚ), some (1867.666 : ℚ), 42, 3, 3, 1, 0, 0⟩,
   ⟨278, some 10, some 10, 0, 0, 0, some (53 : ℚ), some (1874.666 : ℚ), 41, 3, 3, 1, 0, 0⟩,
   ⟨279, some 11, some 11, 0, 0, 0, some (68 : ℚ), some (1889.666 : ℚ), 18, 3, 3, 1, 0, 0⟩,
   ⟨280, some 12, some 12, 0, 0, 0, some (75 : ℚ), some (1896.666 : ℚ), 36, 3, 3, 1, 0, 0⟩,
   ⟨281, some 13, some 13, 0, 0, 0, some (105 : ℚ), some (1926.666 : ℚ), 24, 3, 3, 1, 0, 0⟩,
   ⟨284, some 3, some 3, 0, 0, 0, some (8 : ℚ), some (1803 : ℚ), 12, 3, 3, 2, 0, 0⟩,
   ⟨228, some 2, some 2, 1, 0, 0, some (31.2829999999999 : ℚ), some (4090.967 : ℚ), 33, 1, 1, 3, 0, 0⟩,
   ⟨285, some 4, some 4, 0, 0, 0, some (13 : ℚ), some (1808 : ℚ), 29, 3, 3, 2, 0, 0⟩,
   ⟨286, some 5, some 5, 0, 0, 0, some (20 : ℚ), some (1815 : ℚ), 11, 3, 3, 2, 0, 0⟩,
   ⟨287, some 6, some 6, 0, 0, 0, some (30 : ℚ), some (1825 : ℚ), 17, 3, 3, 2, 0, 0⟩,
   ⟨288, some 7, some 7, 1, 0, 0, some (37 : ℚ), some (1832 : ℚ), 6, 3, 3, 2, 0, 0⟩,
   ⟨289, some 8, some 8, 0, 0, 0, some (42 : ℚ), some (187 : ℚ), 23, 3, 3, 2, 0, 0⟩,
   ⟨290, some 9, some 9, 0, 0, 0, some (54 : ℚ), some (1849 : ℚ), 41, 3, 3, 2, 0, 0⟩,
   ⟨291, some 10, some 10, 0, 0, 0, some (59 : ℚ), some (1854 : ℚ), 36, 3, 3, 2, 0, 0⟩,
   ⟨292, some 11, some 11, 0, 0, 0, some (65 : ℚ), some (1860 : ℚ), 24, 3, 3, 2, 0, 0⟩,
   ⟨293, some 12, some 12, 0, 0, 0, some (70 : ℚ), some (1865 : ℚ), 42, 3, 3, 2, 0, 0⟩]

/-- Data of the drivers_categories table (src/unnamed/part_001 lines 824-867). -/
def drivers_categories : List DriversCategoriesRow :=
  [⟨some "2022-10-23", 10, 62, 3, 1, some 1, none, 0⟩,
   ⟨some "2022-10-23", 10, 77, 4, 1, some 2, none, 0⟩,
   ⟨some "2022-10-23", 10, 0, 9, 1, some 1, none, 0⟩,
   ⟨some "2022-10-23", 10, 50, 10, 1, some 2, none, 0⟩,
   ⟨some "2022-10-23", 10, 98, 15, 1, some 1, none, 0⟩,
   ⟨some "2022-10-23", 10, 17, 16, 1, some 2, none, 0⟩,
   ⟨some "2022-10-23", 10, 26, 21, 1, some 1, none, 0⟩,
   ⟨some "2022-10-23", 10, 175, 22, 1, some 2, none, 0⟩,
   ⟨some "2022-10-23", 10, 5, 27, 1, some 1, none, 0⟩,
   ⟨some "2022-10-23", 10, 31, 28, 1, some 2, none, 0⟩,
   ⟨some "2022-10-23", 10, 16, 33, 1, some 1, none, 0⟩,
   ⟨some "2022-10-23", 10, 9, 34, 1, some 2, none, 0⟩,
   ⟨some "2022-10-23", 10, 82, 39, 1, some 1, none, 0⟩,
   ⟨some "2022-10-23", 10, 95, 40, 1, some 2, none, 0⟩,
   ⟨some "2022-10-23", 10, 65, 7, 2, some 2, none, 0⟩,
   ⟨some "2022-10-23", 10, 27, 8, 2, some 2, none, 0⟩,
   ⟨some "2022-10-23", 10, 17, 13, 2, some 2, none, 0⟩,
   ⟨some "2022-10-23", 10, 22, 14, 2, some 2, none, 0⟩,
   ⟨some "2022-10-23", 10, 46, 19, 2, some 2, none, 0⟩,
   ⟨some "2022-10-23", 10, 95, 25, 2, some 2, none, 0⟩,
   ⟨some "2022-10-23", 10, 3, 26, 2, some 2, none, 0⟩,
   ⟨some "2022-10-23", 10, 43, 31, 2, some 2, none, 0⟩,
   ⟨some "2022-10-23", 10, 14, 32, 2, some 2, none, 0⟩,
   ⟨some "2022-10-23", 10, 70, 37, 2, some 2, none, 0⟩,
   ⟨some "2022-10-23", 10, 98, 38, 2, some 2, none, 0⟩,
   ⟨some "2022-10-23", 10, 10, 44, 2, some 2, none, 0⟩,
   ⟨some "2022-10-23", 10, 7, 20, 2, some 2, none, 0⟩,
   ⟨some "2022-10-23", 10, 13, 5, 3, some 3, none, 0⟩,
   ⟨some "2022-10-23", 10, 17, 6, 3, some 3, none, 0⟩,
   ⟨some "2022-10-23", 10, 11, 12, 3, some 3, none, 0⟩,
   ⟨some "2022-10-23", 10, 27, 17, 3, some 3, none, 0⟩,
   ⟨some "2022-10-23", 10, 8, 18, 3, some 3, none, 0⟩,
   ⟨some "2022-10-23", 10, 2, 23, 3, some 3, none, 0⟩,
   ⟨some "2022-10-23", 10, 46, 29, 3, some 3, none, 0⟩,
   ⟨some "2022-10-23", 10, 24, 30, 3, some 3, none, 0⟩,
   ⟨some "2022-10-23", 10, 17, 35, 3, some 3, none, 0⟩,
   ⟨some "2022-10-23", 10, 76, 36, 3, some 3, none, 0⟩,
   ⟨some "2022-10-23", 10, 18, 41, 3, some 3, none, 0⟩,
   ⟨some "2022-10-23", 10, 23, 42, 3, some 3, none, 0⟩,
   ⟨some "2022-10-23", 10, 30, 11, 3, some 3, none, 0⟩,
   ⟨some "2022-10-23", 10, 17, 24, 3, some 3, none, 0⟩,
   ⟨some "2022-10-23", 10, 21, 43, 2, some 2, none, 0⟩]

/-- Data of the reports table (src/unnamed/part_001 lines 1006-1012). -/
def reports : List ReportRow :=
  [⟨36, 2, "1:08:23",
    none,
    none,
    some "Finisce il carburante prima del traguardo.",
    some "1 warning (1/12), 0punti sulla licenza (10/10).",
    0, some 0, some 0,
    some "Carburante terminato prima della linea del traguardo",
    true, false, none, 1, 1, 3, none, 7, none, 1, 0, some 39, none⟩,
   ⟨37, 3, "1:08:37",
    none,
    none,
    some "Finisce il carburante prima del traguardo.",
    some "1 warning (1/12), 0punti sulla licenza (10/10).",
    0, some 0, some 0,
    some "Carburante terminato prima della linea del traguardo",
    true, false, none, 1, 1, 3, none, 4, none, 1, 0, some 22, none⟩,
   ⟨38, 4, "1:08:01",
    none,
    none,
    some "Finisce il carburante prima del traguardo.",
    some "1 warning (1/12), 0punti sulla licenza (10/10).",
    0, some 0, some 0,
    some "Carburante terminato prima della linea del traguardo",
    true, false, none, 1, 1, 3, none, 2, none, 1, 0, some 9, none⟩,
   ⟨31, 1, "2:20",
    some "maurynho993 tampona Turbolibix46 in curva 1, facendolo uscire di pista e perdere una posizione",
    none,
    some "Collisione con vettura no.46.",
    some "1 warning (1/12), 0punti sulla licenza (10/10).",
    0, none, none,
    some "In approccio di curva 1 il pilota Maurynho993 non lascia sufficiente spazio a Turbolibix46 e lo forza fuori pista.",
    true, false, none, 2, 2, 1, some 689, 1, some 3, 1, 0, some 8, some 19⟩,
   ⟨30, 1, "4:30",
    some "Mantextek effettua impeding nei confronti di ElGallo facendolo finire in ghiaia",
    some "https://youtu.be/tyHtd7tSxo8",
    some "Impeeding in qualifica nei confronti del pilota RTI_Elgallo17",
    some "1 warning (1/12), 0punti sulla licenza (10/10).",
    0, none, none,
    some "Il pilota Mantextek05 non mantiene una posizione in pista consona in qualifica e causa un impeeding nei confronti del pilota RTI_Elgallo17. Si ricorda a tutti i piloti di non intralciare la traiettoria ideale e di procedere a una adeguata velocità",
    true, false, none, 1, 1, 6, some 687, 6, some 4, 1, 0, some 33, some 22⟩]

/-- Data of the rounds table (src/unnamed/part_001 lines 1019-1040). -/
def rounds : List Round :=
  [⟨8, 4, "2022-11-21", "Mount Panorama Circuit", false, 1, 1⟩,
   ⟨9, 4, "2022-11-22", "Mount Panorama Circuit", false, 2, 1⟩,
   ⟨10, 4, "2022-11-24", "Mount Panorama Circuit", false, 3, 1⟩,
   ⟨11, 5, "2022-11-28", "Autodromo Nazionale di Monza", false, 1, 1⟩,
   ⟨12, 5, "2022-11-29", "Autodromo Nazionale di Monza", false, 2, 1⟩,
   ⟨13, 5, "2022-12-01", "Autodromo Nazionale di Monza", false, 3, 1⟩,
   ⟨14, 6, "2022-12-05", "Circuit de Spa-Francorchamps", false, 1, 1⟩,
   ⟨15, 6, "2022-12-06", "Circuit de Spa-Francorchamps", false, 2, 1⟩,
   ⟨16, 6, "2022-12-08", "Circuit de Spa-Francorchamps", false, 3, 1⟩,
   ⟨17, 7, "2022-12-12", "Autódromo José Carlos Pace", false, 1, 1⟩,
   ⟨18, 7, "2022-12-13", "Autódromo José Carlos Pace", false, 2, 1⟩,
   ⟨19, 7, "2022-12-15", "Autódromo José Carlos Pace", false, 3, 1⟩,
   ⟨24, 3, "2022-11-15", "Circuit de la Sarthe", false, 2, 1⟩,
   ⟨25, 3, "2022-11-17", "Circuit de la Sarthe", false, 3, 1⟩,
   ⟨4, 2, "2022-11-07", "Circuit de Barcelona-Catalunya", false, 1, 1⟩,
   ⟨23, 3, "2022-11-14", "Circuit de la Sarthe", false, 1, 1⟩,
   ⟨6, 2, "2022-11-10", "Circuit de Barcelona-Catalunya", false, 3, 1⟩,
   ⟨5, 2, "2022-11-08", "Circuit de Barcelona-Catalunya", false, 2, 1⟩,
   ⟨1, 1, "2022-10-31", "Suzuka Circuit", true, 1, 1⟩,
   ⟨2, 1, "2022-11-01", "Suzuka Circuit", true, 2, 1⟩,
   ⟨3, 1, "2022-11-03", "Suzuka Circuit", true, 3, 1⟩]

/-- Engine state holding the embedded table data of src/unnamed/part_001. -/
def dataState : EngineState :=
  ⟨race_results, qualifying_results, drivers_categories, reports⟩

/-- Result Ledger key predicate for race results, mirroring the uniqueness
constraint _driver_round_session_uc on (driver_id, round_id, session_id)
(src/unnamed/part_001 lines 1159-1160). -/
def raceKeyMatch (d rnd s : Nat) (r : RaceResultRow) : Bool :=
  r.driver_id == d && r.round_id == rnd && r.session_id == s

/-- Modelled from the spec: recordResult creates or, with the supersede flag,
replaces the unique race result row for (driver, round, session); a second
write for the same key without the flag fails with OverlapError (spec
section 4.2; no implementation exists in src/). -/
def recordResult (st : EngineState) (row : RaceResultRow) (supersede : Bool) :
    Except EngineError EngineState :=
  if st.race_results.any (raceKeyMatch row.driver_id row.round_id row.session_id) then
    if supersede then
      .ok { st with race_results :=
        st.race_results.map fun r =>
          if raceKeyMatch row.driver_id row.round_id row.session_id r then row else r }
    else .error .overlapError
  else .ok { st with race_results := row :: st.race_results }

/-- Modelled from the spec: clamp of a licence-point balance into [0, 10]
(spec section 4.3; no implementation exists in src/). -/
def clampLicence (x : Int) : Int := max 0 (min 10 x)

/-- Modelled from the spec: adjustLicencePoints adds the delta to the stored
licence points of the (driver, category) enrollment and clamps the result
into [0, 10] (spec section 4.3; no implementation exists in src/). -/
def adjustLicencePoints (st : EngineState) (d c : Nat) (delta : Int) : EngineState :=
  { st with drivers_categories := st.drivers_categories.map fun row =>
      if row.driver_id == d && row.category_id == c then
        { row with licence_points := clampLicence (row.licence_points + delta) }
      else row }

/-- Modelled from the spec: addWarning increments the warnings counter of the
(driver, category) enrollment with no upper clamp (spec section 4.3; no
implementation exists in src/). -/
def addWarning (st : EngineState) (d c : Nat) (n : Nat) : EngineState :=
  { st with drivers_categories := st.drivers_categories.map fun row =>
      if row.driver_id == d && row.category_id == c then
        { row with warnings := row.warnings + n }
      else row }

/-- CarClass of a driver in a category, resolved through the
drivers_categories enrollment (src/unnamed/part_001 lines 210-219). -/
def carClassOf (dcs : List DriversCategoriesRow) (d c : Nat) : Option Nat :=
  (dcs.find? fun q => q.driver_id == d && q.category_id == c).bind (fun q => q.car_class_id)

/-- Corrected race time: total race time plus penalty seconds (spec
section 4.2). -/
def correctedTime (r : RaceResultRow) : Option ℚ :=
  r.total_racetime.map (· + r.penalty_seconds)

/-- Ordering used for re-ranking: corrected time, ties broken by the earlier
raw finishing order (spec section 4.2). -/
def resultLE (a b : RaceResultRow) : Bool :=
  let ta := (correctedTime a).getD 0
  let tb := (correctedTime b).getD 0
  decide (ta < tb) ||
    (decide (ta = tb) &&
      decide (a.finishing_position.getD 0 ≤ b.finishing_position.getD 0))

/-- Modelled from the spec: re-ranking of a (round, session, CarClass) group:
classified rows are sorted by corrected time and DNF rows (position null)
are always ranked after all classified rows (spec section 4.2; no
implementation exists in src/). -/
def rankGroup (rows : List RaceResultRow) : List RaceResultRow :=
  (rows.filter fun r => r.finishing_position.isSome).mergeSort resultLE ++
    (rows.filter fun r => r.finishing_position.isNone)

/-- Result Ledger key predicate addressing a qualifying row by (driver,
round, session); the schema key (driver_id, round_id) of
qualifying_results_driver_id_round_id_key is stronger, so at most one row
matches (src/unnamed/part_001 lines 1287-1288). -/
def qualKeyMatch (d rnd s : Nat) (q : QualifyingResultRow) : Bool :=
  q.driver_id == d && q.round_id == rnd && q.session_id == s

/-- Ordering used for re-ranking qualifying rows: lap time, ties broken by
the earlier raw position (spec section 4.2). -/
def qualResultLE (a b : QualifyingResultRow) : Bool :=
  let ta := a.laptime.getD 0
  let tb := b.laptime.getD 0
  decide (ta < tb) ||
    (decide (ta = tb) && decide (a.position.getD 0 ≤ b.position.getD 0))

/-- Modelled from the spec: re-ranking of a (round, session, CarClass) group
of qualifying rows: rows with a time are sorted by lap time and no-time rows
(position null) are always ranked after them (spec section 4.2; no
implementation exists in src/). -/
def rankQualGroup (rows : List QualifyingResultRow) : List QualifyingResultRow :=
  (rows.filter fun q => q.position.isSome).mergeSort qualResultLE ++
    (rows.filter fun q => q.position.isNone)

/-- Modelled from the spec: applyPenalty is the one post-recording mutation
path of the Result Ledger, covering both RaceResult and QualifyingResult
rows (spec sections 4.2 and 4.4).  It adds the penalty seconds and penalty
points to the unique result row for (driver, round, session) and recomputes
relative_position by re-ranking the rows of the same round, session and
CarClass by corrected time, DNF rows last.  When no race row carries the
key, the qualifying row with the key is penalized instead; the
qualifying_results table has no penalty_seconds column (src/unnamed/part_001
lines 318-330), so there the time penalty is reflected in the lap time.  A
key matching no result row at all fails with StateError (spec section 7; no
implementation exists in src/). -/
def applyPenalty (st : EngineState) (d rnd s : Nat) (secs : ℚ) (pts : Int) :
    Except EngineError EngineState :=
  match st.race_results.find? (raceKeyMatch d rnd s) with
  | some r0 =>
    let updated := st.race_results.map fun r =>
      if raceKeyMatch d rnd s r then
        { r with penalty_seconds := r.penalty_seconds + secs,
                 penalty_points := r.penalty_points + pts }
      else r
    let cls := carClassOf st.drivers_categories d r0.category_id
    let inGroup := fun (r : RaceResultRow) =>
      r.round_id == rnd && r.session_id == s &&
        carClassOf st.drivers_categories r.driver_id r.category_id == cls
    let group := rankGroup (updated.filter inGroup)
    let ranked := updated.map fun r =>
      if inGroup r then
        { r with relative_position :=
            ((group.enum.find? fun p => p.2.result_id == r.result_id).map
              fun p => p.1 + 1) }
      else r
    .ok { st with race_results := ranked }
  | none =>
    match st.qualifying_results.find? (qualKeyMatch d rnd s) with
    | none => .error .stateError
    | some q0 =>
      let updated := st.qualifying_results.map fun q =>
        if qualKeyMatch d rnd s q then
          { q with laptime := q.laptime.map (· + secs),
                   penalty_points := q.penalty_points + pts }
        else q
      let cls := carClassOf st.drivers_categories d q0.category_id
      let inGroup := fun (q : QualifyingResultRow) =>
        q.round_id == rnd && q.session_id == s &&
          carClassOf st.drivers_categories q.driver_id q.category_id == cls
      let group := rankQualGroup (updated.filter inGroup)
      let ranked := updated.map fun q =>
        if inGroup q then
          { q with relative_position :=
              ((group.enum.find? fun p =>
                  p.2.qualifying_result_id == q.qualifying_result_id).map
                fun p => p.1 + 1) }
        else q
      .ok { st with qualifying_results := ranked }

/-- Draft data provided by the reporter when filing an incident report
(spec section 4.4). -/
structure ReportDraft where
  incident_time : String
  category_id : Nat
  round_id : Nat
  session_id : Nat
  reported_team_id : Nat
  reported_driver_id : Option Nat
  reporting_team_id : Option Nat
  reporting_driver_id : Option Nat
  report_reason : Option String
deriving Repr, DecidableEq

/-- Modelled from the spec: the next report number of a (category, round,
session) scope, assigned at filing time (spec section 4.4; no implementation
exists in src/). -/
def nextReportNumber (rs : List ReportRow) (c rnd s : Nat) : Nat :=
  (rs.filter fun q => q.category_id == c && q.round_id == rnd && q.session_id == s).length + 1

/-- Modelled from the spec: filing appends a new report in the Filed state
(is_reviewed and is_queued false, penalty fields zero or absent) carrying the
next scoped number, and leaves every existing report unchanged (spec
section 4.4; no implementation exists in src/). -/
def fileReport (st : EngineState) (rid : Nat) (d : ReportDraft) : EngineState :=
  { st with reports := st.reports ++
      [{ report_id := rid
         number := nextReportNumber st.reports d.category_id d.round_id d.session_id
         incident_time := d.incident_time
         report_reason := d.report_reason
         video_link := none
         fact := none
         penalty := none
         time_penalty := 0
         championship_penalty_points := none
         licence_penalty_points := none
         penalty_reason := none
         is_reviewed := false
         is_queued := false
         report_time := none
         category_id := d.category_id
         round_id := d.round_id
         session_id := d.session_id
         channel_message_id := none
         reported_team_id := d.reported_team_id
         reporting_team_id := d.reporting_team_id
         warnings := 0
         licence_points := 0
         reported_driver_id := d.reported_driver_id
         reporting_driver_id := d.reporting_driver_id }] }

/-- Sets the is_queued flag of a report. -/
def setQueued (st : EngineState) (rid : Nat) : EngineState :=
  { st with reports := st.reports.map fun q =>
      if q.report_id == rid then { q with is_queued := true } else q }

/-- Sets the is_reviewed flag of a report. -/
def markReviewed (st : EngineState) (rid : Nat) : EngineState :=
  { st with reports := st.reports.map fun q =>
      if q.report_id == rid then { q with is_reviewed := true } else q }

/-- Review actions of the Stewarding Workflow (spec section 4.4). -/
inductive ReportAction
  | queue
  | accept (secs : ℚ) (champPts : Int) (licencePts : Int) (warns : Nat)
  | reject
deriving Repr, DecidableEq

/-- Modelled from the spec: the review state machine of a Report.  A report
that is already reviewed is terminal: every transition attempt fails with
StateError.  Queueing sets is_queued.  Rejecting sets is_reviewed, leaves the
penalty fields as filed (zero or absent) and mutates no ledger.  Accepting
applies the time/points penalty to the affected result row, deducts the
licence-point penalty and adds a warning on the Roster Ledger as one unit and
marks the report reviewed; the penalized row is the affected RaceResult or
QualifyingResult row of the reported (driver, round, session), resolved by
applyPenalty; when any part fails the whole transition fails and none of the
side effects is kept (spec sections 4.4 and 7; no implementation exists in
src/). -/
def reportStep (st : EngineState) (rid : Nat) (a : ReportAction) :
    Except EngineError EngineState :=
  match st.reports.find? (fun q => q.report_id == rid) with
  | none => .error .referenceError
  | some rep =>
    if rep.is_reviewed then .error .stateError
    else
      match a with
      | .queue => .ok (setQueued st rid)
      | .reject => .ok (markReviewed st rid)
      | .accept secs champPts licencePts warns =>
        match rep.reported_driver_id with
        | none => .error .referenceError
        | some d =>
          match applyPenalty st d rep.round_id rep.session_id secs champPts with
          | .error e => .error e
          | .ok st1 =>
            .ok (markReviewed
              (addWarning (adjustLicencePoints st1 d rep.category_id (-licencePts))
                d rep.category_id warns) rid)

/-- Point value sequence configured for a session, resolved through the
sessions and point_systems tables (src/unnamed/part_001 lines 1048-1053 and
884-888). -/
def sessionValues (s : Nat) : List ℚ :=
  match sessions.find? (fun q => q.session_id == s) with
  | none => []
  | some ses =>
    match point_systems.find? (fun ps => ps.point_system_id == ses.point_system_id) with
    | none => []
    | some ps => ps.values

/-- Scoring position of a race row: the current (penalty-adjusted) rank
within the CarClass for classified rows, none for DNF rows (spec sections
4.2 and 4.5). -/
def scoringPosition (r : RaceResultRow) : Option Nat :=
  match r.finishing_position with
  | none => none
  | some _ => r.relative_position

/-- Points contribution of a race result row: the scoring position resolved
through the point system of its session, plus the fastest-lap bonus, minus
the championship penalty points (spec section 4.5). -/
def rowPoints (r : RaceResultRow) : ℚ :=
  pointsOf (sessionValues r.session_id) (scoringPosition r) +
    (r.fastest_lap_points : ℚ) - (r.penalty_points : ℚ)

/-- Scoring position of a qualifying row, none for no-time rows. -/
def qualScoringPosition (q : QualifyingResultRow) : Option Nat :=
  match q.position with
  | none => none
  | some _ => q.relative_position

/-- Points contribution of a qualifying result row. -/
def qualRowPoints (q : QualifyingResultRow) : ℚ :=
  pointsOf (sessionValues q.session_id) (qualScoringPosition q) - (q.penalty_points : ℚ)

/-- Round number of a round id, resolved through the rounds table. -/
def roundNumberOf (rnd : Nat) : Nat :=
  match rounds.find? (fun q => q.round_id == rnd) with
  | none => 0
  | some r => r.number

/-- Whether a result belongs to the standings scope: its category matches and
its round number does not exceed the optional cutoff (spec section 4.5). -/
def inScope (categoryId : Nat) (cutoff : Option Nat) (c rnd : Nat) : Bool :=
  c == categoryId &&
    (match cutoff with
     | none => true
     | some k => roundNumberOf rnd ≤ k)

/-- Drivers with a result in the standings scope, without duplicates. -/
def driversOf (st : EngineState) (categoryId : Nat) (cutoff : Option Nat) : List Nat :=
  (((st.race_results.filter fun r =>
        inScope categoryId cutoff r.category_id r.round_id).map fun r => r.driver_id) ++
    ((st.qualifying_results.filter fun q =>
        inScope categoryId cutoff q.category_id q.round_id).map fun q => q.driver_id)).dedup

/-- Total points of a driver over the standings scope. -/
def totalFor (st : EngineState) (categoryId : Nat) (cutoff : Option Nat) (d : Nat) : ℚ :=
  ((st.race_results.filter fun r =>
      r.driver_id == d && inScope categoryId cutoff r.category_id r.round_id).map rowPoints).sum +
    ((st.qualifying_results.filter fun q =>
        q.driver_id == d && inScope categoryId cutoff q.category_id q.round_id).map
      qualRowPoints).sum

/-- Modelled from the spec: `standings(categoryId, throughRoundNumber?)` — a
pure read-side projection that sums, per driver, the points of every race and
qualifying result of the category up to the optional cutoff and sorts the
totals descending, ties broken by ascending driver id (the documented
deterministic tie-break of this model); it never mutates state (spec
section 4.5; no implementation exists in src/). -/
def standings (st : EngineState) (categoryId : Nat) (cutoff : Option Nat) :
    List (Nat × ℚ) :=
  (((driversOf st categoryId cutoff).map fun d =>
      (d, totalFor st categoryId cutoff d)).mergeSort fun a b =>
    decide (b.2 < a.2) || (decide (a.2 = b.2) && decide (a.1 ≤ b.1)))

/-- Modelled from the spec: the standings query as an engine operation,
returning its output together with the state, which it leaves untouched
(spec section 4.5; no implementation exists in src/). -/
def standingsQuery (st : EngineState) (categoryId : Nat) (cutoff : Option Nat) :
    List (Nat × ℚ) × EngineState :=
  (standings st categoryId cutoff, st)

/-- Empty engine state. -/
def emptyState : EngineState := ⟨[], [], [], []⟩

/-- Sample race result row for the key (driver 7, round 1, session 1). -/
def sampleRow1 : RaceResultRow :=
  ⟨1, some 1, some 1, 0, 0, 0, none, none, 7, 1, 1, 1, 0, 0⟩

/-- Second sample race result row for the same key as sampleRow1. -/
def sampleRow2 : RaceResultRow :=
  ⟨2, some 2, some 2, 0, 0, 0, none, none, 7, 1, 1, 1, 0, 0⟩

/-- Sample report draft for the scope (category 1, round 1, session 3). -/
def sampleDraft : ReportDraft :=
  ⟨"0:10", 1, 1, 3, 7, some 39, none, none, none⟩

/-- Sample unreviewed report filed on the qualifying session (category 1,
round 1, session 6) against driver 33, who holds qualifying row 43 of the
embedded data. -/
def sampleQualReport : ReportRow :=
  ⟨50, 1, "4:30", none, none, none, none, 0, none, none, none, false, false,
    none, 1, 1, 6, none, 6, none, 0, 0, some 33, none⟩

/-- Engine state holding the embedded qualifying data, no race rows, and the
sample qualifying-session report awaiting review. -/
def qualReportState : EngineState :=
  ⟨[], qualifying_results, drivers_categories, [sampleQualReport]⟩

/-- Invariant of the Roster Ledger: the stored licence points of every
(driver, category) enrollment lie within [0, 10] (spec section 4.3). -/
def licenceInv (st : EngineState) : Prop :=
  ∀ row ∈ st.drivers_categories, 0 ≤ row.licence_points ∧ row.licence_points ≤ 10

instance (st : EngineState) : Decidable (licenceInv st) :=
  List.decidableBAll _ st.drivers_categories

/-- Folds a sequence of (driver, category, delta) licence-point adjustments
over the state. -/
def applyAdjustments (st : EngineState) (ops : List (Nat × Nat × Int)) : EngineState :=
  ops.foldl (fun s op => adjustLicencePoints s op.1 op.2.1 op.2.2) st

/-- Inserts a report into a list sorted by ascending report id. -/
def insertByReportId (q : ReportRow) : List ReportRow → List ReportRow
  | [] => [q]
  | r :: rs =>
    if q.report_id ≤ r.report_id then q :: r :: rs else r :: insertByReportId q rs

/-- Insertion sort of reports by ascending report id (filing order). -/
def sortByReportId : List ReportRow → List ReportRow
  | [] => []
  | r :: rs => insertByReportId r (sortByReportId rs)

/-- Numbers of the stored reports of a (category, round, session) scope, in
filing (report id) order. -/
def scopeNumbers (rs : List ReportRow) (c rnd s : Nat) : List Nat :=
  (sortByReportId (rs.filter fun q =>
      q.category_id == c && q.round_id == rnd && q.session_id == s)).map fun q => q.number

/-- Within every (category, round, session) scope the report numbers are
strictly increasing in report id order; in particular a number is never
reused inside a scope. -/
def scopedNumbersStrictMono (rs : List ReportRow) : Prop :=
  ∀ a ∈ rs, ∀ b ∈ rs,
    a.category_id = b.category_id → a.round_id = b.round_id →
      a.session_id = b.session_id → a.report_id < b.report_id → a.number < b.number

instance (rs : List ReportRow) : Decidable (scopedNumbersStrictMono rs) := by
  unfold scopedNumbersStrictMono; infer_instance

/-- Bool check over the stored qualifying data: within every (round, session,
CarClass) group, every classified row has a strictly smaller relative
position than every row with a null position. -/
def qualifyingDnfRankedLast (qrs : List QualifyingResultRow)
    (dcs : List DriversCategoriesRow) : Bool :=
  qrs.all fun a => qrs.all fun b =>
    !(a.round_id == b.round_id && a.session_id == b.session_id &&
        carClassOf dcs a.driver_id a.category_id ==
          carClassOf dcs b.driver_id b.category_id &&
        a.position.isSome && b.position.isNone) ||
      decide (a.relative_position.getD 0 < b.relative_position.getD 0)

/-- Key of the uniqueness constraint
qualifying_results_driver_id_round_id_key: (driver_id, round_id)
(src/unnamed/part_001 lines 1287-1288). -/
def qualKeyPair (a : QualifyingResultRow) : Nat × Nat := (a.driver_id, a.round_id)

/-- Key of the shape of the race-result constraint _driver_round_session_uc:
(driver_id, round_id, session_id) (src/unnamed/part_001 lines 1159-1160),
taken over qualifying rows for comparison. -/
def qualKeyTriple (a : QualifyingResultRow) : Nat × Nat × Nat :=
  (a.driver_id, a.round_id, a.session_id)

/-- Uniqueness on (driver_id, round_id) over a qualifying store. -/
def qualPairwiseUnique (l : List QualifyingResultRow) : Prop :=
  (l.map qualKeyPair).Nodup

/-- Uniqueness on (driver_id, round_id, session_id) over a qualifying
store. -/
def qualTripleUnique (l : List QualifyingResultRow) : Prop :=
  (l.map qualKeyTriple).Nodup

instance (l : List QualifyingResultRow) : Decidable (qualPairwiseUnique l) :=
  inferInstanceAs (Decidable (l.map qualKeyPair).Nodup)

instance (l : List QualifyingResultRow) : Decidable (qualTripleUnique l) :=
  inferInstanceAs (Decidable (l.map qualKeyTriple).Nodup)

/-- C1: for every point system and every 1-based position, the point resolver
returns the value at that index of the ordered value sequence, and returns 0
whenever the position is null, less than 1, or greater than the sequence
length; on the point system [12.5, 10, 8, 6.5, 5.5, 5, 4.5, 4, 3.5, 3, 2.5,
2, 1.5, 1] (id 1) it gives 12.5 at position 1, 1 at position 14, 0 at
position 15, and 0 at null. -/
theorem C1_points_resolution (values : List ℚ) (i p : Nat)
    (hi : i < values.length) (hp : p = 0 ∨ values.length < p) :
    pointsOf values (some (i + 1)) = values.getD i 0 ∧
    pointsOf values none = 0 ∧
    pointsOf values (some p) = 0 ∧
    points 1 (some 1) = .ok 12.5 ∧
    points 1 (some 14) = .ok 1 ∧
    points 1 (some 15) = .ok 0 ∧
    points 1 none = .ok 0 := by
  refine ⟨?_, rfl, ?_, rfl, rfl, rfl, rfl⟩
  · simp [pointsOf, List.getD]
  · rcases hp with h | h
    · subst h; simp [pointsOf]
    · have hp0 : ¬ p < 1 := by omega
      have hn : values[p - 1]? = none := List.getElem?_eq_none (by omega)
      simp [pointsOf, hp0, hn]

/-- C1 witness: the theorem applied to the value sequence of point system 1,
index 0 and out-of-range position 15. -/
theorem C1_points_resolution_witness :
    pointsOf [12.5, 10, 8, 6.5, 5.5, 5, 4.5, 4, 3.5, 3, 2.5, 2, 1.5, 1]
        (some (0 + 1)) =
      List.getD [(12.5 : ℚ), 10, 8, 6.5, 5.5, 5, 4.5, 4, 3.5, 3, 2.5, 2, 1.5, 1] 0 0 ∧
    pointsOf [12.5, 10, 8, 6.5, 5.5, 5, 4.5, 4, 3.5, 3, 2.5, 2, 1.5, 1] none = 0 ∧
    pointsOf [12.5, 10, 8, 6.5, 5.5, 5, 4.5, 4, 3.5, 3, 2.5, 2, 1.5, 1] (some 15) = 0 ∧
    points 1 (some 1) = .ok 12.5 ∧
    points 1 (some 14) = .ok 1 ∧
    points 1 (some 15) = .ok 0 ∧
    points 1 none = .ok 0 :=
  C1_points_resolution [12.5, 10, 8, 6.5, 5.5, 5, 4.5, 4, 3.5, 3, 2.5, 2, 1.5, 1]
    0 15 (by decide) (by decide)

/-- Helper: the clamp keeps its result within [0, 10]. -/
theorem clampLicence_bounds (x : Int) : 0 ≤ clampLicence x ∧ clampLicence x ≤ 10 :=
  ⟨le_max_left 0 _, max_le (by norm_num) (min_le_left 10 x)⟩

/-- Helper: one licence-point adjustment preserves the [0, 10] invariant. -/
theorem adjustLicencePoints_preserves (st : EngineState) (d c : Nat) (delta : Int)
    (h : licenceInv st) : licenceInv (adjustLicencePoints st d c delta) := by
  intro row hrow
  simp only [adjustLicencePoints, List.mem_map] at hrow
  obtain ⟨r0, hr0, rfl⟩ := hrow
  by_cases hc : (r0.driver_id == d && r0.category_id == c) = true
  · simp only [hc, if_true]
    exact clampLicence_bounds _
  · simp only [hc, if_false]
    exact h r0 hr0

/-- C3: starting from any state whose stored licence points all lie within
[0, 10], any sequence of adjustLicencePoints calls leaves every stored
licence-point balance within [0, 10] (the adjustment clamps its result into
that interval), and the embedded drivers_categories data (default 10)
satisfies the invariant. -/
theorem C3_licence_points_bounded (st : EngineState) (ops : List (Nat × Nat × Int))
    (h : licenceInv st) :
    licenceInv (applyAdjustments st ops) ∧ licenceInv dataState := by
  refine ⟨?_, by decide⟩
  induction ops generalizing st with
  | nil => exact h
  | cons op rest ih => exact ih _ (adjustLicencePoints_preserves st op.1 op.2.1 op.2.2 h)

/-- C3 witness: the theorem applied to the embedded data state and a sequence
of adjustments that would, without the clamp, leave the interval. -/
theorem C3_licence_points_bounded_witness :
    licenceInv (applyAdjustments dataState [(3, 1, -5), (3, 1, -20), (3, 1, 100)]) ∧
      licenceInv dataState :=
  C3_licence_points_bounded dataState [(3, 1, -5), (3, 1, -20), (3, 1, 100)] (by decide)

/-- C7 counterexample: in the persisted reports store of
src/unnamed/part_001, the scope (category 1, round 1, session 3) holds the
report numbers [2, 3, 4] in filing order: number 1 is absent while larger
numbers are present, so the numbers of the filed reports of a scope are not
the gap-free sequence 1, 2, 3, …. -/
theorem C7_counterexample_scope_gap :
    scopeNumbers reports 1 1 3 = [2, 3, 4] ∧
    1 ∉ scopeNumbers reports 1 1 3 ∧
    scopeNumbers reports 1 1 3 ≠ List.range' 1 (scopeNumbers reports 1 1 3).length := by
  exact ⟨by decide, by decide, by decide⟩

/-- C7 amended: within every (category, round, session) scope of the
persisted reports store, the report numbers are strictly increasing in
filing (report id) order — so a number is never reused within a scope — but
the stored sequence of a scope need not start at 1 or be gap-free, because
earlier reports may be absent from the store (scope (1, 1, 3) holds the
numbers 2, 3, 4). -/
theorem C7_scoped_numbers_increasing : scopedNumbersStrictMono reports := by decide

/-- C10: the qualifying-results store is unique on (driver, round) alone,
which is strictly stronger than the (driver, round, session) uniqueness of
race results: every store unique on the pair is unique on the triple, two
qualifying rows for the same driver and round under different sessions
satisfy the triple uniqueness yet still conflict under the pair uniqueness,
and the embedded qualifying_results data satisfies the pair uniqueness. -/
theorem C10_qualifying_unique_per_round :
    (∀ l : List QualifyingResultRow, qualPairwiseUnique l → qualTripleUnique l) ∧
    (∃ a b : QualifyingResultRow,
      a.driver_id = b.driver_id ∧ a.round_id = b.round_id ∧ a.session_id ≠ b.session_id ∧
      qualTripleUnique [a, b] ∧ ¬ qualPairwiseUnique [a, b]) ∧
    qualPairwiseUnique qualifying_results := by
  refine ⟨?_, ?_, by decide⟩
  · intro l h
    have h1 : l.Pairwise fun a b => qualKeyPair a ≠ qualKeyPair b := List.pairwise_map.mp h
    refine List.pairwise_map.mpr (h1.imp ?_)
    intro a b hab htriple
    apply hab
    simp only [qualKeyTriple, Prod.mk.injEq] at htriple
    simp only [qualKeyPair, Prod.mk.injEq]
    exact ⟨htriple.1, htriple.2.1⟩
  · exact ⟨⟨1, none, none, none, 0, 5, 7, 1, 1, 0, 0⟩,
      ⟨2, none, none, none, 0, 5, 7, 1, 2, 0, 0⟩, rfl, rfl, by decide, by decide, by decide⟩

/-- C10 witness: the strictly-stronger direction of the theorem applied to a
concrete two-row store that is unique on (driver, round). -/
theorem C10_qualifying_unique_per_round_witness :
    qualTripleUnique
      [⟨1, none, none, none, 0, 5, 7, 1, 1, 0, 0⟩,
       ⟨2, none, none, none, 0, 6, 7, 1, 1, 0, 0⟩] :=
  C10_qualifying_unique_per_round.1
    [⟨1, none, none, none, 0, 5, 7, 1, 1, 0, 0⟩,
     ⟨2, none, none, none, 0, 6, 7, 1, 1, 0, 0⟩] (by decide)

/-- Helper: recording a row for a key absent from the store prepends it. -/
theorem recordResult_fresh (st : EngineState) (r : RaceResultRow)
    (hfresh : st.race_results.any
      (raceKeyMatch r.driver_id r.round_id r.session_id) = false) :
    recordResult st r false = .ok { st with race_results := r :: st.race_results } := by
  simp [recordResult, hfresh]

/-- C2: after a first record of r1 for a fresh (driver, round, session) key,
recording r2 for the same key without the supersede flag fails with
OverlapError and the row stored for the key is still exactly r1; with the
flag, r2 replaces r1 and the resulting state is exactly the state obtained
by recording r2 alone, so a subsequent standings computation reflects only
the latest row. -/
theorem C2_record_result_supersede (st st1 : EngineState) (r1 r2 : RaceResultRow)
    (hd : r1.driver_id = r2.driver_id) (hr : r1.round_id = r2.round_id)
    (hs : r1.session_id = r2.session_id)
    (hfresh : st.race_results.any
      (raceKeyMatch r1.driver_id r1.round_id r1.session_id) = false)
    (h1 : recordResult st r1 false = .ok st1) :
    recordResult st1 r2 false = .error .overlapError ∧
    st1.race_results.filter (raceKeyMatch r2.driver_id r2.round_id r2.session_id) = [r1] ∧
    recordResult st1 r2 true = .ok { st with race_results := r2 :: st.race_results } ∧
    recordResult st r2 false = .ok { st with race_results := r2 :: st.race_results } ∧
    (∀ st2, recordResult st1 r2 true = .ok st2 → ∀ c cut,
      standings st2 c cut =
        standings { st with race_results := r2 :: st.race_results } c cut) := by
  have hkey1 : raceKeyMatch r2.driver_id r2.round_id r2.session_id r1 = true := by
    simp [raceKeyMatch, hd, hr, hs]
  rw [recordResult_fresh st r1 hfresh] at h1
  have hst1 : { st with race_results := r1 :: st.race_results } = st1 := Except.ok.inj h1
  subst hst1
  rw [hd, hr, hs] at hfresh
  have hall : ∀ x ∈ st.race_results,
      raceKeyMatch r2.driver_id r2.round_id r2.session_id x = false := by
    intro x hx
    exact Bool.eq_false_iff.mpr (List.any_eq_false.mp hfresh x hx)
  have hnil : st.race_results.filter
      (raceKeyMatch r2.driver_id r2.round_id r2.session_id) = [] :=
    List.filter_eq_nil_iff.mpr fun a ha => by simp [hall a ha]
  have htail : st.race_results.map (fun r =>
      if raceKeyMatch r2.driver_id r2.round_id r2.session_id r then r2 else r) =
      st.race_results :=
    List.map_congr_left (fun a ha => by simp [hall a ha]) |>.trans
      (List.map_id st.race_results)
  have hsup : recordResult { st with race_results := r1 :: st.race_results } r2 true =
      .ok { st with race_results := r2 :: st.race_results } := by
    simp [recordResult, List.any_cons, hkey1, hnil, htail]
  refine ⟨?_, ?_, hsup, ?_, ?_⟩
  · simp [recordResult, List.any_cons, hkey1]
  · simp [List.filter_cons, hkey1, hnil]
  · exact recordResult_fresh st r2 hfresh
  · intro st2 h2 c cut
    rw [hsup] at h2
    rw [← Except.ok.inj h2]

/-- C2 witness: the theorem applied to the empty store and two sample rows
sharing the key (driver 7, round 1, session 1). -/
theorem C2_record_result_supersede_witness :
    recordResult ⟨[sampleRow1], [], [], []⟩ sampleRow2 false = .error .overlapError ∧
    (⟨[sampleRow1], [], [], []⟩ : EngineState).race_results.filter
      (raceKeyMatch sampleRow2.driver_id sampleRow2.round_id sampleRow2.session_id) =
      [sampleRow1] ∧
    recordResult ⟨[sampleRow1], [], [], []⟩ sampleRow2 true =
      .ok { emptyState with race_results := [sampleRow2] } ∧
    recordResult emptyState sampleRow2 false =
      .ok { emptyState with race_results := [sampleRow2] } ∧
    (∀ st2, recordResult ⟨[sampleRow1], [], [], []⟩ sampleRow2 true = .ok st2 → ∀ c cut,
      standings st2 c cut =
        standings { emptyState with race_results := [sampleRow2] } c cut) :=
  C2_record_result_supersede emptyState ⟨[sampleRow1], [], [], []⟩ sampleRow1 sampleRow2
    rfl rfl rfl rfl rfl

/-- C4: ranking a (round, session, CarClass) group always places every
classified row before every row with a null position (DNF / no time); a DNF
row receives 0 points regardless of the point value sequence of the session;
and in the embedded qualifying data every classified row of a (round,
session, CarClass) group carries a strictly smaller relative position than
every null-position row of the same group. -/
theorem C4_dnf_ranked_last (rows : List RaceResultRow) (values : List ℚ)
    (r : RaceResultRow) (hr : r.finishing_position = none) :
    (∃ cs ds, rankGroup rows = cs ++ ds ∧
      (∀ x ∈ cs, x.finishing_position.isSome = true) ∧
      (∀ x ∈ ds, x.finishing_position.isNone = true)) ∧
    pointsOf values (scoringPosition r) = 0 ∧
    qualifyingDnfRankedLast qualifying_results drivers_categories = true := by
  refine ⟨⟨_, _, rfl, ?_, ?_⟩, ?_, by decide⟩
  · intro x hx
    have hx1 : x ∈ rows.filter fun q => q.finishing_position.isSome :=
      List.mem_mergeSort.mp hx
    exact (List.mem_filter.mp hx1).2
  · intro x hx
    exact (List.mem_filter.mp hx).2
  · simp [scoringPosition, hr, pointsOf]

/-- C4 witness: the theorem applied to the DNF race result row 233 of the
embedded data (driver 21, round 1, session 3) and the point value sequence
of point system 2. -/
theorem C4_dnf_ranked_last_witness :
    (∃ cs ds, rankGroup race_results = cs ++ ds ∧
      (∀ x ∈ cs, x.finishing_position.isSome = true) ∧
      (∀ x ∈ ds, x.finishing_position.isNone = true)) ∧
    pointsOf [40, 35, 32, 27, 25, 23, 22, 20, 15, 12, 9, 6, 4, 2]
      (scoringPosition ⟨233, none, none, 0, 0, 0, none, none, 21, 1, 1, 3, 0, 0⟩) = 0 ∧
    qualifyingDnfRankedLast qualifying_results drivers_categories = true :=
  C4_dnf_ranked_last race_results [40, 35, 32, 27, 25, 23, 22, 20, 15, 12, 9, 6, 4, 2]
    ⟨233, none, none, 0, 0, 0, none, none, 21, 1, 1, 3, 0, 0⟩ rfl

/-- C5: a Report with is_reviewed set is terminal: every transition attempt
(queue, accept with any penalties, reject) fails with StateError, and filing
a new report — the only way to re-review an incident — leaves every stored
report unchanged in the store. -/
theorem C5_reviewed_report_terminal (st : EngineState) (rid : Nat) (rep : ReportRow)
    (hfind : st.reports.find? (fun q => q.report_id == rid) = some rep)
    (hrev : rep.is_reviewed = true) (a : ReportAction) (newId : Nat) (d : ReportDraft) :
    reportStep st rid a = .error .stateError ∧
    (∀ q ∈ st.reports, q ∈ (fileReport st newId d).reports) := by
  constructor
  · simp only [reportStep, hfind, hrev]
    rfl
  · intro q hq
    exact List.mem_append_left _ hq

/-- C5 witness: the theorem applied to the embedded data state and report 36,
which is reviewed, with a reject attempt and a fresh filing. -/
theorem C5_reviewed_report_terminal_witness :
    reportStep dataState 36 .reject = .error .stateError ∧
    (∀ q ∈ dataState.reports, q ∈ (fileReport dataState 100 sampleDraft).reports) :=
  C5_reviewed_report_terminal dataState 36 (reports.get ⟨0, by decide⟩) rfl rfl
    .reject 100 sampleDraft

/-- C6: the accept transition is all-or-nothing: it either fails with an
error — in which case it returns no state at all, so no side effect is
observable — or it succeeds and the returned state carries exactly the three
side effects together: applyPenalty on the affected RaceResult or
QualifyingResult row, the licence points deducted and the warning added on
the Roster Ledger, plus the review mark; no state with only part of the
effects is ever returned.  The last conjunct shows the qualifying arm is
live: accepting a report filed on the qualifying session succeeds on a
concrete state holding the embedded qualifying data. -/
theorem C6_accept_atomic (st : EngineState) (rid : Nat) (secs : ℚ)
    (champPts licencePts : Int) (warns : Nat) :
    ((∃ e, reportStep st rid (.accept secs champPts licencePts warns) = .error e) ∨
      (∃ rep d st1,
        st.reports.find? (fun q => q.report_id == rid) = some rep ∧
        rep.is_reviewed = false ∧
        rep.reported_driver_id = some d ∧
        applyPenalty st d rep.round_id rep.session_id secs champPts = .ok st1 ∧
        reportStep st rid (.accept secs champPts licencePts warns) =
          .ok (markReviewed
            (addWarning (adjustLicencePoints st1 d rep.category_id (-licencePts))
              d rep.category_id warns) rid))) ∧
    (∃ st2, reportStep qualReportState 50 (.accept 1 1 1 1) = .ok st2) := by
  refine ⟨?_, ⟨_, rfl⟩⟩
  unfold reportStep
  cases hfind : st.reports.find? (fun q => q.report_id == rid) with
  | none => exact .inl ⟨_, rfl⟩
  | some rep =>
    cases hrev : rep.is_reviewed with
    | true => exact .inl ⟨.stateError, by simp [hrev]⟩
    | false =>
      cases hdr : rep.reported_driver_id with
      | none => exact .inl ⟨.referenceError, by simp [hrev, hdr]⟩
      | some d =>
        cases hap : applyPenalty st d rep.round_id rep.session_id secs champPts with
        | error e => exact .inl ⟨e, by simp [hrev, hdr, hap]⟩
        | ok st1 =>
          exact .inr ⟨rep, d, st1, rfl, hrev, hdr, hap, by simp [hrev, hdr, hap]⟩

/-- C8: the standings query is side-effect-free and idempotent: it returns
the state it was given unchanged, running it a second time on the state it
returned yields exactly the same ordered output, and its output is the pure
standings projection of the state. -/
theorem C8_standings_idempotent (st : EngineState) (c : Nat) (cut : Option Nat) :
    (standingsQuery st c cut).2 = st ∧
    (standingsQuery (standingsQuery st c cut).2 c cut).1 = (standingsQuery st c cut).1 ∧
    (standingsQuery st c cut).1 = standings st c cut :=
  ⟨rfl, rfl, rfl⟩

/-- C9: filing a report and then reviewing it as Rejected leaves every race
result row, every qualifying result row and every Roster Ledger counter
(licence points and warnings in drivers_categories) exactly as they were
before the report was filed; the rejected report itself keeps the penalty
fields it was filed with (zero or absent). -/
theorem C9_reject_frame (st : EngineState) (rid : Nat) (d : ReportDraft)
    (hfresh : ∀ q ∈ st.reports, (q.report_id == rid) = false) :
    ∃ st2, reportStep (fileReport st rid d) rid .reject = .ok st2 ∧
      st2.race_results = st.race_results ∧
      st2.qualifying_results = st.qualifying_results ∧
      st2.drivers_categories = st.drivers_categories := by
  refine ⟨markReviewed (fileReport st rid d) rid, ?_, rfl, rfl, rfl⟩
  have h0 : st.reports.find? (fun q => q.report_id == rid) = none :=
    List.find?_eq_none.mpr fun q hq => by simp [hfresh q hq]
  have h1 : (fileReport st rid d).reports.find? (fun q => q.report_id == rid) =
      (st.reports ++ [_]).find? (fun q => q.report_id == rid) := rfl
  simp only [reportStep, h1, List.find?_append, h0, Option.none_orElse, List.find?_cons]
  simp

/-- C9 witness: the theorem applied to the embedded data state, a fresh
report id and the sample draft. -/
theorem C9_reject_frame_witness :
    ∃ st2, reportStep (fileReport dataState 100 sampleDraft) 100 .reject = .ok st2 ∧
      st2.race_results = dataState.race_results ∧
      st2.qualifying_results = dataState.qualifying_results ∧
      st2.drivers_categories = dataState.drivers_categories :=
  C9_reject_frame dataState 100 sampleDraft (by decide)

end BotRti
